import Mathlib

/-!
Verification of the Modal Presenter component
(src/frontend/src/components/Modals/SharedModal.tsx).

The component is a pure function from its props to a JSX tree.  We embed the
props record, the JSX tree it returns (constructor by constructor from the
source, lines 28-63), and the host rendering semantics (what an open or closed
Dialog and raw JavaScript values display), and prove the specified properties.
-/

namespace Aimantis

/-- A renderable payload passed as the `children` prop (React.ReactNode).
The component treats it as opaque, so it is modelled as an atom: an element
such as a form, or one of the JavaScript primitive values that are also valid
ReactNodes (string, number, boolean).  The primitive shapes matter because the
source tests the truthiness of `children` (line 26). -/
inductive Content where
  | elem (tag : String)
  | str (s : String)
  | int (n : Int)
  | boolean (b : Bool)
deriving Repr, DecidableEq

/-- JavaScript truthiness of a ReactNode value: an element is truthy, a string
is truthy iff nonempty, a number iff nonzero, a boolean iff true. -/
def Content.truthy : Content → Bool
  | .elem _ => true
  | .str s => !s.isEmpty
  | .int n => n != 0
  | .boolean b => b

/-- Truthiness of the optional `children` prop: `undefined` (absent) is falsy,
a supplied value has its own truthiness. -/
def jsTruthy : Option Content → Bool
  | none => false
  | some c => c.truthy

/-- The props interface DialogModalProps (source lines 11-17).  The source
field `open` is a Lean keyword, so it is named `isOpen` here (the spec's name
for it).  `onClose : α` is the caller's nullary callback, kept opaque. -/
structure DialogModalProps (α : Type) where
  isOpen : Bool
  title : Option String
  description : Option String
  onClose : α
  children : Option Content

/-- `const showInfoOnly = !children` (source line 26). -/
def showInfoOnly (children : Option Content) : Bool :=
  !jsTruthy children

/-- The spec's vocabulary for the two presentation modes. -/
inductive Mode where
  | INFO_ONLY
  | CONTENT
deriving Repr, DecidableEq

/-- The derived presentation mode: the INFO_ONLY branch is taken exactly when
the source flag `showInfoOnly` is true. -/
def modeOf (p : DialogModalProps α) : Mode :=
  if showInfoOnly p.children then .INFO_ONLY else .CONTENT

/-- The JSX tree the component can return.  Adjacent JSX children are encoded
with `seq`; an expression that renders nothing (`undefined`, or a `cond && x`
whose condition is the boolean false) is `empty`; a raw JavaScript value left
in the tree by `falsyValue && x` is `raw`.  `dialog` and `dialogContent` are
the external Dialog primitive and its content container; `contentNode` is the
caller's payload placed verbatim in the tree. -/
inductive Node (α : Type) where
  | dialog (isOpen : Bool) (onOpenChange : α) (child : Node α)
  | dialogContent (className : String) (child : Node α)
  | seq (first second : Node α)
  | dialogHeader (child : Node α)
  | dialogTitle (className : String) (text : String)
  | dialogDescription (text : String)
  | div (className : String) (child : Node α)
  | button (className : String) (onClick : α) (label : String)
  | iconX (onClick : α) (color : String) (className : String)
  | contentNode (c : Content)
  | raw (c : Content)
  | empty
deriving Repr, DecidableEq

/-- Source line 36: `title && DialogTitle`.  When `title` is absent the
expression is `undefined` and renders nothing; when it is the empty string the
expression evaluates to that falsy string itself. -/
def titleLine (t : Option String) : Node α :=
  match t with
  | none => Node.empty
  | some s =>
    if s.isEmpty then Node.raw (Content.str s)
    else Node.dialogTitle "flex" s

/-- Source lines 37-39: `description && DialogDescription`. -/
def descriptionLine (d : Option String) : Node α :=
  match d with
  | none => Node.empty
  | some s =>
    if s.isEmpty then Node.raw (Content.str s)
    else Node.dialogDescription s

/-- Source lines 33-48: `showInfoOnly && (header, then close button)`; the
fragment holds the DialogHeader with the title and description lines and a
div with the single Close button wired to `onClose`. -/
def infoBlock (infoOnly : Bool) (t d : Option String) (onClose : α) : Node α :=
  if infoOnly then
    Node.seq
      (Node.dialogHeader (Node.seq (titleLine t) (descriptionLine d)))
      (Node.div "flex justify-end pt-4" (Node.button "btn" onClose "Close"))
  else Node.empty

/-- Source lines 50-60: `children && (scrollable div)`.  When `children` is
truthy this is a div bounded to 75% of the viewport height with internal
scrolling, holding the payload verbatim and an IconX wired to `onClose`; when
`children` is supplied but falsy the expression evaluates to that falsy value
itself; when absent it is `undefined` and renders nothing. -/
def contentBlock (children : Option Content) (onClose : α) : Node α :=
  match children with
  | none => Node.empty
  | some c =>
    if c.truthy then
      Node.div "relative max-h-[75vh] overflow-auto"
        (Node.seq
          (Node.div "relative" (Node.contentNode c))
          (Node.iconX onClose "red"
            "absolute top-8 right-0 hover:bg-gray-100 rounded-md cursor-pointer"))
    else Node.raw c

/-- The SharedModal component (source lines 19-64), transcribed from the JSX:
* line 26: `showInfoOnly = !children`;
* line 29: `Dialog open onOpenChange=onClose`;
* lines 30-32: `DialogContent` whose className interpolates the width class
  from `showInfoOnly`;
* lines 33-48: the INFO_ONLY block, `infoBlock`;
* lines 50-60: the CONTENT block, `contentBlock`. -/
def SharedModal (p : DialogModalProps α) : Node α :=
  let infoOnly := showInfoOnly p.children
  Node.dialog p.isOpen p.onClose
    (Node.dialogContent
      ("p-0 " ++ (if infoOnly then "!max-w-md" else "w-full !max-w-2xl"))
      (Node.seq
        (infoBlock infoOnly p.title p.description p.onClose)
        (contentBlock p.children p.onClose)))

/-- What the host actually displays: the visible pieces of a rendered tree.
`overlay` is the visible dialog surface with its width className, `vdiv` a
visible container with its className, `vnil` nothing. -/
inductive VNode (α : Type) where
  | overlay (className : String) (child : VNode α)
  | header (child : VNode α)
  | vseq (first second : VNode α)
  | titleText (className : String) (text : String)
  | descText (text : String)
  | vdiv (className : String) (child : VNode α)
  | closeButton (className : String) (label : String) (handler : α)
  | dismissIcon (className : String) (handler : α)
  | payload (c : Content)
  | rawText (s : String)
  | vnil
deriving Repr, DecidableEq

/-- How the host displays a raw JavaScript value left in the tree: booleans
and the empty string display nothing; a nonempty string or a number displays
as text; an element displays itself. -/
def rawRender : Content → VNode α
  | .str s => if s.isEmpty then .vnil else .rawText s
  | .int n => .rawText (toString n)
  | .boolean _ => .vnil
  | .elem t => .payload (.elem t)

/-- Modelled from the spec: the Dialog primitive
(src/frontend/src/components/ui/Dialog, not included under src/) owns the
open/close lifecycle, showing its overlay surface and children when `open` is
true and nothing at all when `open` is false.  All other constructors display
as the corresponding visible piece. -/
def visibleOf : Node α → VNode α
  | .dialog isOpen _ child => if isOpen then visibleOf child else .vnil
  | .dialogContent cn child => .overlay cn (visibleOf child)
  | .seq a b => .vseq (visibleOf a) (visibleOf b)
  | .dialogHeader child => .header (visibleOf child)
  | .dialogTitle cn t => .titleText cn t
  | .dialogDescription d => .descText d
  | .div cn child => .vdiv cn (visibleOf child)
  | .button cn h l => .closeButton cn l h
  | .iconX h _ cn => .dismissIcon cn h
  | .contentNode c => .payload c
  | .raw c => rawRender c
  | .empty => .vnil

/-- Number of visible close buttons in a displayed tree. -/
def VNode.closeButtonCount : VNode α → Nat
  | .overlay _ c => c.closeButtonCount
  | .header c => c.closeButtonCount
  | .vseq a b => a.closeButtonCount + b.closeButtonCount
  | .vdiv _ c => c.closeButtonCount
  | .closeButton _ _ _ => 1
  | _ => 0

/-- Number of visible dismiss icons in a displayed tree. -/
def VNode.dismissIconCount : VNode α → Nat
  | .overlay _ c => c.dismissIconCount
  | .header c => c.dismissIconCount
  | .vseq a b => a.dismissIconCount + b.dismissIconCount
  | .vdiv _ c => c.dismissIconCount
  | .dismissIcon _ _ => 1
  | _ => 0

/-- Number of visible title regions in a displayed tree. -/
def VNode.titleCount : VNode α → Nat
  | .overlay _ c => c.titleCount
  | .header c => c.titleCount
  | .vseq a b => a.titleCount + b.titleCount
  | .vdiv _ c => c.titleCount
  | .titleText _ _ => 1
  | _ => 0

/-- Number of visible description regions in a displayed tree. -/
def VNode.descCount : VNode α → Nat
  | .overlay _ c => c.descCount
  | .header c => c.descCount
  | .vseq a b => a.descCount + b.descCount
  | .vdiv _ c => c.descCount
  | .descText _ => 1
  | _ => 0

/-- Handlers of the visible close buttons, in render order. -/
def VNode.closeButtonHandlers : VNode α → List α
  | .overlay _ c => c.closeButtonHandlers
  | .header c => c.closeButtonHandlers
  | .vseq a b => a.closeButtonHandlers ++ b.closeButtonHandlers
  | .vdiv _ c => c.closeButtonHandlers
  | .closeButton _ _ h => [h]
  | _ => []

/-- Handlers of the visible dismiss icons, in render order. -/
def VNode.dismissIconHandlers : VNode α → List α
  | .overlay _ c => c.dismissIconHandlers
  | .header c => c.dismissIconHandlers
  | .vseq a b => a.dismissIconHandlers ++ b.dismissIconHandlers
  | .vdiv _ c => c.dismissIconHandlers
  | .dismissIcon _ h => [h]
  | _ => []

/-- Number of close buttons present in a JSX tree (independent of whether the
dialog is open): the element the INFO_ONLY block and only it contains. -/
def Node.closeButtonCountN : Node α → Nat
  | .dialog _ _ c => c.closeButtonCountN
  | .dialogContent _ c => c.closeButtonCountN
  | .seq a b => a.closeButtonCountN + b.closeButtonCountN
  | .dialogHeader c => c.closeButtonCountN
  | .div _ c => c.closeButtonCountN
  | .button _ _ _ => 1
  | _ => 0

/-- Number of scrollable bounded content regions in a JSX tree: divs carrying
the className of source line 51 — the element the CONTENT block and only it
contains. -/
def Node.scrollRegionCountN : Node α → Nat
  | .dialog _ _ c => c.scrollRegionCountN
  | .dialogContent _ c => c.scrollRegionCountN
  | .seq a b => a.scrollRegionCountN + b.scrollRegionCountN
  | .dialogHeader c => c.scrollRegionCountN
  | .div cn c =>
    (if cn == "relative max-h-[75vh] overflow-auto" then 1 else 0)
      + c.scrollRegionCountN
  | _ => 0

/-- Number of DialogTitle elements in a JSX tree. -/
def Node.titleCountN : Node α → Nat
  | .dialog _ _ c => c.titleCountN
  | .dialogContent _ c => c.titleCountN
  | .seq a b => a.titleCountN + b.titleCountN
  | .dialogHeader c => c.titleCountN
  | .div _ c => c.titleCountN
  | .dialogTitle _ _ => 1
  | _ => 0

/-- Number of DialogDescription elements in a JSX tree. -/
def Node.descCountN : Node α → Nat
  | .dialog _ _ c => c.descCountN
  | .dialogContent _ c => c.descCountN
  | .seq a b => a.descCountN + b.descCountN
  | .dialogHeader c => c.descCountN
  | .div _ c => c.descCountN
  | .dialogDescription _ => 1
  | _ => 0

/-- The className of the dialog content container of a tree (its width
classes), empty for a tree with no container. -/
def Node.containerClass : Node α → String
  | .dialog _ _ c => c.containerClass
  | .dialogContent cn _ => cn
  | _ => ""

/-- The `open` flag the tree passes to the Dialog primitive. -/
def Node.dialogOpenFlag : Node α → Option Bool
  | .dialog b _ _ => some b
  | _ => none

/-- The handler the tree wires to the Dialog primitive's dismissal signal
(onOpenChange), collected only when the dialog is open, since the primitive
emits outside-click and escape dismissal signals only while it shows. -/
def Node.dialogDismissHandlers : Node α → List α
  | .dialog b h _ => if b then [h] else []
  | _ => []

/-- Renaming of the opaque callback values throughout a JSX tree. -/
def Node.mapHandlers (f : α → β) : Node α → Node β
  | .dialog b h c => .dialog b (f h) (c.mapHandlers f)
  | .dialogContent cn c => .dialogContent cn (c.mapHandlers f)
  | .seq a b => .seq (a.mapHandlers f) (b.mapHandlers f)
  | .dialogHeader c => .dialogHeader (c.mapHandlers f)
  | .dialogTitle cn t => .dialogTitle cn t
  | .dialogDescription d => .dialogDescription d
  | .div cn c => .div cn (c.mapHandlers f)
  | .button cn h l => .button cn (f h) l
  | .iconX h co cn => .iconX (f h) co cn
  | .contentNode c => .contentNode c
  | .raw c => .raw c
  | .empty => .empty

/-- Renaming of the callback value in the props. -/
def DialogModalProps.mapHandler (f : α → β) (p : DialogModalProps α) :
    DialogModalProps β :=
  { isOpen := p.isOpen, title := p.title, description := p.description,
    onClose := f p.onClose, children := p.children }

/-- The dismissal gestures of the spec. -/
inductive Gesture where
  | closeButtonClick
  | dismissIconClick
  | dialogDismiss
deriving Repr, DecidableEq

/-- Modelled from the spec: the host event system dispatches a dismissal
gesture to the handler of the activated rendered element, invoking it
synchronously exactly once per gesture; the Dialog primitive forwards its
own dismissal signal (outside click, escape) to the handler it was given as
onOpenChange.  The result lists the callback invocations one gesture causes;
each listed handler is nullary (a zero-argument function in the source), so every
invocation passes no arguments. -/
def gestureInvocations (p : DialogModalProps α) : Gesture → List α
  | .closeButtonClick => (visibleOf (SharedModal p)).closeButtonHandlers
  | .dismissIconClick => (visibleOf (SharedModal p)).dismissIconHandlers
  | .dialogDismiss => (SharedModal p).dialogDismissHandlers

/-- Spec scenario A: open, title and description supplied, no content. -/
def pScenarioA : DialogModalProps Unit :=
  { isOpen := true, title := some "Delete item?",
    description := some "This cannot be undone.", onClose := (),
    children := none }

/-- A second record with the same field values as scenario A. -/
def pScenarioA2 : DialogModalProps Unit :=
  { isOpen := true, title := some "Delete item?",
    description := some "This cannot be undone.", onClose := (),
    children := none }

/-- Spec scenario B: open, a title to be ignored, and a form as content. -/
def pScenarioB : DialogModalProps Unit :=
  { isOpen := true, title := some "ignored", description := none,
    onClose := (), children := some (Content.elem "Form") }

/-- Spec scenario C: closed, with a form as content. -/
def pScenarioC : DialogModalProps Unit :=
  { isOpen := false, title := none, description := none, onClose := (),
    children := some (Content.elem "Form") }

/-- Open, with the empty string supplied as content: present but falsy. -/
def pFalsyStr : DialogModalProps Unit :=
  { isOpen := true, title := none, description := none, onClose := (),
    children := some (Content.str "") }

/-- Open, with the number 0 supplied as content: present but falsy. -/
def pFalsyZero : DialogModalProps Unit :=
  { isOpen := true, title := none, description := none, onClose := (),
    children := some (Content.int 0) }

/-! ## Helper lemmas about the blocks -/

theorem titleLine_visible (t : Option String) :
    (visibleOf (titleLine (α := α) t)).titleCount
        = (match t with | none => 0 | some s => if s.isEmpty then 0 else 1)
      ∧ (visibleOf (titleLine (α := α) t)).descCount = 0
      ∧ (visibleOf (titleLine (α := α) t)).closeButtonCount = 0
      ∧ (visibleOf (titleLine (α := α) t)).dismissIconCount = 0
      ∧ (visibleOf (titleLine (α := α) t)).closeButtonHandlers = []
      ∧ (visibleOf (titleLine (α := α) t)).dismissIconHandlers = [] := by
  rcases t with _ | s
  · exact ⟨rfl, rfl, rfl, rfl, rfl, rfl⟩
  · cases hs : s.isEmpty <;>
      simp [titleLine, hs, visibleOf, rawRender, VNode.titleCount,
        VNode.descCount, VNode.closeButtonCount, VNode.dismissIconCount,
        VNode.closeButtonHandlers, VNode.dismissIconHandlers]

theorem descriptionLine_visible (d : Option String) :
    (visibleOf (descriptionLine (α := α) d)).titleCount = 0
      ∧ (visibleOf (descriptionLine (α := α) d)).descCount
          = (match d with | none => 0 | some s => if s.isEmpty then 0 else 1)
      ∧ (visibleOf (descriptionLine (α := α) d)).closeButtonCount = 0
      ∧ (visibleOf (descriptionLine (α := α) d)).dismissIconCount = 0
      ∧ (visibleOf (descriptionLine (α := α) d)).closeButtonHandlers = []
      ∧ (visibleOf (descriptionLine (α := α) d)).dismissIconHandlers = [] := by
  rcases d with _ | s
  · exact ⟨rfl, rfl, rfl, rfl, rfl, rfl⟩
  · cases hs : s.isEmpty <;>
      simp [descriptionLine, hs, visibleOf, rawRender, VNode.titleCount,
        VNode.descCount, VNode.closeButtonCount, VNode.dismissIconCount,
        VNode.closeButtonHandlers, VNode.dismissIconHandlers]

theorem titleLine_counts (t : Option String) :
    (titleLine (α := α) t).closeButtonCountN = 0
      ∧ (titleLine (α := α) t).scrollRegionCountN = 0
      ∧ (titleLine (α := α) t).titleCountN
          = (match t with | none => 0 | some s => if s.isEmpty then 0 else 1)
      ∧ (titleLine (α := α) t).descCountN = 0 := by
  rcases t with _ | s
  · exact ⟨rfl, rfl, rfl, rfl⟩
  · cases hs : s.isEmpty <;>
      simp [titleLine, hs, Node.closeButtonCountN, Node.scrollRegionCountN,
        Node.titleCountN, Node.descCountN]

theorem descriptionLine_counts (d : Option String) :
    (descriptionLine (α := α) d).closeButtonCountN = 0
      ∧ (descriptionLine (α := α) d).scrollRegionCountN = 0
      ∧ (descriptionLine (α := α) d).titleCountN = 0
      ∧ (descriptionLine (α := α) d).descCountN
          = (match d with | none => 0 | some s => if s.isEmpty then 0 else 1) := by
  rcases d with _ | s
  · exact ⟨rfl, rfl, rfl, rfl⟩
  · cases hs : s.isEmpty <;>
      simp [descriptionLine, hs, Node.closeButtonCountN, Node.scrollRegionCountN,
        Node.titleCountN, Node.descCountN]

theorem sharedModal_counts (p : DialogModalProps α) :
    (SharedModal p).closeButtonCountN = (if jsTruthy p.children then 0 else 1)
      ∧ (SharedModal p).scrollRegionCountN = (if jsTruthy p.children then 1 else 0)
      ∧ (SharedModal p).titleCountN
          = (if jsTruthy p.children then 0
             else match p.title with | none => 0 | some s => if s.isEmpty then 0 else 1)
      ∧ (SharedModal p).descCountN
          = (if jsTruthy p.children then 0
             else match p.description with
                  | none => 0 | some s => if s.isEmpty then 0 else 1) := by
  have ht := titleLine_counts (α := α) p.title
  have hd := descriptionLine_counts (α := α) p.description
  rcases hch : p.children with _ | c
  · simp [SharedModal, hch, showInfoOnly, jsTruthy, infoBlock, contentBlock,
      Node.closeButtonCountN, Node.scrollRegionCountN, Node.titleCountN,
      Node.descCountN, ht.1, ht.2.1, ht.2.2.1, ht.2.2.2,
      hd.1, hd.2.1, hd.2.2.1, hd.2.2.2]
  · cases hc : c.truthy <;>
      simp [SharedModal, hch, hc, showInfoOnly, jsTruthy, infoBlock, contentBlock,
        Node.closeButtonCountN, Node.scrollRegionCountN, Node.titleCountN,
        Node.descCountN, ht.1, ht.2.1, ht.2.2.1, ht.2.2.2,
        hd.1, hd.2.1, hd.2.2.1, hd.2.2.2]

theorem titleLine_mapHandlers (f : α → β) (t : Option String) :
    Node.mapHandlers f (titleLine t) = titleLine t := by
  rcases t with _ | s
  · rfl
  · cases hs : s.isEmpty <;> simp [titleLine, hs, Node.mapHandlers]

theorem descriptionLine_mapHandlers (f : α → β) (d : Option String) :
    Node.mapHandlers f (descriptionLine d) = descriptionLine d := by
  rcases d with _ | s
  · rfl
  · cases hs : s.isEmpty <;> simp [descriptionLine, hs, Node.mapHandlers]

theorem infoBlock_mapHandlers (f : α → β) (b : Bool) (t d : Option String) (h : α) :
    Node.mapHandlers f (infoBlock b t d h) = infoBlock b t d (f h) := by
  cases b <;>
    simp [infoBlock, Node.mapHandlers, titleLine_mapHandlers,
      descriptionLine_mapHandlers]

theorem contentBlock_mapHandlers (f : α → β) (ch : Option Content) (h : α) :
    Node.mapHandlers f (contentBlock ch h) = contentBlock ch (f h) := by
  rcases ch with _ | c
  · rfl
  · cases hc : c.truthy <;> simp [contentBlock, hc, Node.mapHandlers]

theorem rawRender_handlers (c : Content) :
    (rawRender (α := α) c).closeButtonHandlers = []
      ∧ (rawRender (α := α) c).dismissIconHandlers = []
      ∧ (rawRender (α := α) c).closeButtonCount = 0
      ∧ (rawRender (α := α) c).dismissIconCount = 0 := by
  rcases c with t | s | n | b
  · exact ⟨rfl, rfl, rfl, rfl⟩
  · cases hs : s.isEmpty <;>
      simp [rawRender, hs, VNode.closeButtonHandlers, VNode.dismissIconHandlers,
        VNode.closeButtonCount, VNode.dismissIconCount]
  · exact ⟨rfl, rfl, rfl, rfl⟩
  · exact ⟨rfl, rfl, rfl, rfl⟩

/-! ## The claims -/

/-- C1, amended: the presentation mode is derived on every render solely from
the `children` prop with no stored mode flag, but from its truthiness rather
than its presence: the mode is INFO_ONLY when `children` is absent or falsy
and CONTENT when `children` is truthy.  The derived mode is what the returned
tree realizes: the INFO_ONLY block (its close button) is in the tree exactly
when `children` is not truthy, the CONTENT block (its scrollable region)
exactly when it is, and any two prop records whose `children` agree in
truthiness derive the same mode. -/
theorem mode_from_content_truthiness (α : Type) (p : DialogModalProps α) :
    modeOf p = (if jsTruthy p.children then Mode.CONTENT else Mode.INFO_ONLY)
      ∧ (SharedModal p).closeButtonCountN = (if jsTruthy p.children then 0 else 1)
      ∧ (SharedModal p).scrollRegionCountN = (if jsTruthy p.children then 1 else 0)
      ∧ ∀ q : DialogModalProps α,
          jsTruthy q.children = jsTruthy p.children → modeOf q = modeOf p := by
  refine ⟨?_, (sharedModal_counts p).1, (sharedModal_counts p).2.1, ?_⟩
  · cases hj : jsTruthy p.children <;> simp [modeOf, showInfoOnly, hj]
  · intro q hq
    simp [modeOf, showInfoOnly, hq]

/-- C1, witness for the amended claim: scenario A (content absent) and the
empty-string-content record agree in truthiness and derive the same mode. -/
theorem mode_from_content_truthiness_witness :
    jsTruthy pScenarioA.children = jsTruthy pFalsyStr.children
      ∧ modeOf pScenarioA = modeOf pFalsyStr :=
  ⟨by decide,
   (mode_from_content_truthiness Unit pFalsyStr).2.2.2 pScenarioA (by decide)⟩

/-- C1, counterexample to the claim as stated: with the empty string supplied
as content, `content` is present, yet the derived mode is INFO_ONLY (line 26
tests truthiness, and the empty string is falsy): the close button is in the
tree and the scrollable content region is not. -/
theorem mode_from_presence_cex :
    pFalsyStr.children.isSome = true
      ∧ modeOf pFalsyStr = Mode.INFO_ONLY
      ∧ (SharedModal pFalsyStr).closeButtonCountN = 1
      ∧ (SharedModal pFalsyStr).scrollRegionCountN = 0 := by
  decide

/-- C2: whenever `isOpen` is false, nothing is displayed — no overlay and no
content — regardless of every other field, because the tree hands `isOpen`
to the Dialog primitive, which shows nothing when its open flag is false. -/
theorem closed_modal_renders_nothing (α : Type) (p : DialogModalProps α)
    (h : p.isOpen = false) : visibleOf (SharedModal p) = VNode.vnil := by
  simp [SharedModal, visibleOf, h]

/-- C2, witness: spec scenario C — closed with a form as content displays
nothing. -/
theorem closed_modal_renders_nothing_witness :
    pScenarioC.isOpen = false
      ∧ visibleOf (SharedModal pScenarioC) = VNode.vnil :=
  ⟨rfl, closed_modal_renders_nothing Unit pScenarioC rfl⟩

/-- C3: exactly one of the two presentation modes is active in every returned
tree — the count of INFO_ONLY close buttons plus the count of CONTENT
scrollable regions is exactly one, so the two blocks are never both present —
and in CONTENT mode (truthy `children`) no title and no description element
is in the tree even when both fields are supplied and non-empty. -/
theorem modes_mutually_exclusive (α : Type) (p : DialogModalProps α) :
    (SharedModal p).closeButtonCountN + (SharedModal p).scrollRegionCountN = 1
      ∧ (jsTruthy p.children = true →
          (SharedModal p).titleCountN = 0 ∧ (SharedModal p).descCountN = 0) := by
  obtain ⟨h1, h2, h3, h4⟩ := sharedModal_counts p
  constructor
  · cases hj : jsTruthy p.children <;> simp [h1, h2, hj]
  · intro hj
    simp [h3, h4, hj]

/-- C3, witness: scenario B supplies a truthy form as content together with a
non-empty title, and no title or description element is in the tree. -/
theorem modes_mutually_exclusive_witness :
    jsTruthy pScenarioB.children = true
      ∧ ((SharedModal pScenarioB).titleCountN = 0
          ∧ (SharedModal pScenarioB).descCountN = 0) :=
  ⟨rfl, (modes_mutually_exclusive Unit pScenarioB).2 rfl⟩

/-- C4: open with content absent renders INFO_ONLY — exactly one close
button, no dismiss icon, and the title and description regions each display
iff the field is supplied and non-empty. -/
theorem info_only_render (α : Type) (p : DialogModalProps α)
    (ho : p.isOpen = true) (hc : p.children = none) :
    (visibleOf (SharedModal p)).closeButtonCount = 1
      ∧ (visibleOf (SharedModal p)).dismissIconCount = 0
      ∧ (visibleOf (SharedModal p)).titleCount
          = (match p.title with | none => 0 | some s => if s.isEmpty then 0 else 1)
      ∧ (visibleOf (SharedModal p)).descCount
          = (match p.description with
             | none => 0 | some s => if s.isEmpty then 0 else 1) := by
  have ht := titleLine_visible (α := α) p.title
  have hd := descriptionLine_visible (α := α) p.description
  simp [SharedModal, ho, hc, showInfoOnly, jsTruthy, infoBlock, contentBlock,
    visibleOf, VNode.closeButtonCount, VNode.dismissIconCount, VNode.titleCount,
    VNode.descCount, ht.1, ht.2.1, ht.2.2.1, ht.2.2.2.1,
    hd.1, hd.2.1, hd.2.2.1, hd.2.2.2.1]

/-- C4, witness: spec scenario A displays one close button, no dismiss icon,
one title and one description. -/
theorem info_only_render_witness :
    pScenarioA.isOpen = true ∧ pScenarioA.children = none
      ∧ (visibleOf (SharedModal pScenarioA)).closeButtonCount = 1
      ∧ (visibleOf (SharedModal pScenarioA)).dismissIconCount = 0
      ∧ (visibleOf (SharedModal pScenarioA)).titleCount = 1
      ∧ (visibleOf (SharedModal pScenarioA)).descCount = 1 := by
  have h := info_only_render Unit pScenarioA rfl rfl
  refine ⟨rfl, rfl, h.1, h.2.1, ?_, ?_⟩
  · rw [h.2.2.1]; decide
  · rw [h.2.2.2]; decide

/-- C5, amended: open with content supplied and truthy displays exactly the
wide overlay holding the caller's payload verbatim inside a div bounded to
75% of the viewport height with internal scrolling, and a dismiss icon
positioned near the top, wired to `onClose`. -/
theorem content_mode_render (α : Type) (p : DialogModalProps α) (c : Content)
    (ho : p.isOpen = true) (hc : p.children = some c) (ht : c.truthy = true) :
    visibleOf (SharedModal p)
      = VNode.overlay "p-0 w-full !max-w-2xl"
          (VNode.vseq VNode.vnil
            (VNode.vdiv "relative max-h-[75vh] overflow-auto"
              (VNode.vseq (VNode.vdiv "relative" (VNode.payload c))
                (VNode.dismissIcon
                  "absolute top-8 right-0 hover:bg-gray-100 rounded-md cursor-pointer"
                  p.onClose)))) := by
  simp [SharedModal, ho, hc, ht, showInfoOnly, jsTruthy, infoBlock,
    contentBlock, visibleOf]

/-- C5, witness: spec scenario B displays the form inside the scrollable
bounded region with the dismiss icon. -/
theorem content_mode_render_witness :
    pScenarioB.isOpen = true
      ∧ pScenarioB.children = some (Content.elem "Form")
      ∧ (Content.elem "Form").truthy = true
      ∧ visibleOf (SharedModal pScenarioB)
          = VNode.overlay "p-0 w-full !max-w-2xl"
              (VNode.vseq VNode.vnil
                (VNode.vdiv "relative max-h-[75vh] overflow-auto"
                  (VNode.vseq
                    (VNode.vdiv "relative" (VNode.payload (Content.elem "Form")))
                    (VNode.dismissIcon
                      "absolute top-8 right-0 hover:bg-gray-100 rounded-md cursor-pointer"
                      ())))) :=
  ⟨rfl, rfl, rfl,
   content_mode_render Unit pScenarioB (Content.elem "Form") rfl rfl rfl⟩

/-- C5, counterexample to the claim as stated: the empty string as content is
present, the dialog is open, yet no scrollable content region, no payload and
no dismiss icon is displayed (line 26 routes falsy content to INFO_ONLY and
line 50 renders the falsy value itself, which displays nothing). -/
theorem content_present_not_rendered_cex :
    pFalsyStr.isOpen = true
      ∧ pFalsyStr.children.isSome = true
      ∧ (visibleOf (SharedModal pFalsyStr)).dismissIconCount = 0
      ∧ (SharedModal pFalsyStr).scrollRegionCountN = 0 := by
  decide

/-- C6: while the modal is open, every dismissal gesture invokes the caller's
`onClose` exactly once: the Dialog primitive's own dismissal signal (outside
click, escape) is forwarded to exactly `onClose`; clicking the close button
(displayed exactly in INFO_ONLY mode) invokes exactly `onClose`; clicking the
dismiss icon (displayed exactly in CONTENT mode) invokes exactly `onClose`.
Every listed handler is the caller's nullary callback itself, so each
invocation passes no arguments. -/
theorem dismissal_gestures_invoke_onClose_once (α : Type)
    (p : DialogModalProps α) (ho : p.isOpen = true) :
    gestureInvocations p Gesture.dialogDismiss = [p.onClose]
      ∧ gestureInvocations p Gesture.closeButtonClick
          = (if jsTruthy p.children then [] else [p.onClose])
      ∧ gestureInvocations p Gesture.dismissIconClick
          = (if jsTruthy p.children then [p.onClose] else []) := by
  have ht := titleLine_visible (α := α) p.title
  have hd := descriptionLine_visible (α := α) p.description
  refine ⟨?_, ?_, ?_⟩
  · simp [gestureInvocations, SharedModal, Node.dialogDismissHandlers, ho]
  all_goals
    rcases hch : p.children with _ | c
    · simp [gestureInvocations, SharedModal, hch, ho, showInfoOnly, jsTruthy,
        infoBlock, contentBlock, visibleOf, VNode.closeButtonHandlers,
        VNode.dismissIconHandlers, ht.2.2.2.2.1, ht.2.2.2.2.2,
        hd.2.2.2.2.1, hd.2.2.2.2.2]
    · have hr := rawRender_handlers (α := α) c
      cases hc : c.truthy <;>
        simp [gestureInvocations, SharedModal, hch, hc, ho, showInfoOnly,
          jsTruthy, infoBlock, contentBlock, visibleOf,
          VNode.closeButtonHandlers, VNode.dismissIconHandlers,
          ht.2.2.2.2.1, ht.2.2.2.2.2, hd.2.2.2.2.1, hd.2.2.2.2.2,
          hr.1, hr.2.1]

/-- C6, witness: in scenario B the dialog-level dismissal and the icon click
each invoke the callback exactly once. -/
theorem dismissal_gestures_invoke_onClose_once_witness :
    pScenarioB.isOpen = true
      ∧ gestureInvocations pScenarioB Gesture.dialogDismiss = [()]
      ∧ gestureInvocations pScenarioB Gesture.dismissIconClick = [()] := by
  have h := dismissal_gestures_invoke_onClose_once Unit pScenarioB rfl
  refine ⟨rfl, h.1, ?_⟩
  rw [h.2.2]
  decide

/-- C7: the width className of the overlay container is a function of the
derived presentation mode alone — the compact/medium class in INFO_ONLY mode,
the wide class in CONTENT mode — so INFO_ONLY never gets the wide container
and CONTENT never gets the compact one. -/
theorem container_width_from_mode (α : Type) (p : DialogModalProps α) :
    (SharedModal p).containerClass
      = (match modeOf p with
         | Mode.INFO_ONLY => "p-0 !max-w-md"
         | Mode.CONTENT => "p-0 w-full !max-w-2xl") := by
  cases hj : jsTruthy p.children <;>
    simp [SharedModal, Node.containerClass, modeOf, showInfoOnly, hj]

/-- C8: rendering is pure wiring.  (i) Rendering commutes with every renaming
of the opaque callback value, so the component only places `onClose` into
handler slots and can neither invoke nor inspect it during the render — the
render is a pure function from the props to a tree, with no other effect (the
source body, lines 26-63, is a single expression with no network, storage or
timer operation).  (ii) The component hands the caller's `isOpen` to the
Dialog primitive unchanged: it never closes itself and can only signal intent
through the wired handlers. -/
theorem render_pure_wiring (α β : Type) (f : α → β) (p : DialogModalProps α) :
    Node.mapHandlers f (SharedModal p) = SharedModal (p.mapHandler f)
      ∧ (SharedModal p).dialogOpenFlag = some p.isOpen := by
  constructor
  · simp [SharedModal, DialogModalProps.mapHandler, Node.mapHandlers,
      infoBlock_mapHandlers, contentBlock_mapHandlers]
  · rfl

/-- C9: content supplied but falsy (empty string, 0, false) selects INFO_ONLY
— mode selection tests truthiness, not presence — so the close button is
displayed and the scrollable content region with its dismiss icon is not. -/
theorem falsy_content_selects_info_only (α : Type) (p : DialogModalProps α)
    (c : Content) (ho : p.isOpen = true) (hc : p.children = some c)
    (hf : c.truthy = false) :
    modeOf p = Mode.INFO_ONLY
      ∧ (visibleOf (SharedModal p)).closeButtonCount = 1
      ∧ (visibleOf (SharedModal p)).dismissIconCount = 0
      ∧ (SharedModal p).scrollRegionCountN = 0 := by
  have ht := titleLine_visible (α := α) p.title
  have hd := descriptionLine_visible (α := α) p.description
  have hr := rawRender_handlers (α := α) c
  refine ⟨?_, ?_, ?_, ?_⟩
  · simp [modeOf, showInfoOnly, jsTruthy, hc, hf]
  · simp [SharedModal, ho, hc, hf, showInfoOnly, jsTruthy, infoBlock,
      contentBlock, visibleOf, VNode.closeButtonCount, ht.2.2.1, hd.2.2.1,
      hr.2.2.1]
  · simp [SharedModal, ho, hc, hf, showInfoOnly, jsTruthy, infoBlock,
      contentBlock, visibleOf, VNode.dismissIconCount, ht.2.2.2.1,
      hd.2.2.2.1, hr.2.2.2]
  · have h := (sharedModal_counts p).2.1
    simp [hc, jsTruthy, hf] at h
    exact h

/-- C9, witness: the number 0 supplied as content is present but falsy, and
the open modal displays the INFO_ONLY close button. -/
theorem falsy_content_selects_info_only_witness :
    pFalsyZero.isOpen = true
      ∧ pFalsyZero.children = some (Content.int 0)
      ∧ (Content.int 0).truthy = false
      ∧ modeOf pFalsyZero = Mode.INFO_ONLY
      ∧ (visibleOf (SharedModal pFalsyZero)).closeButtonCount = 1 := by
  have h := falsy_content_selects_info_only Unit pFalsyZero (Content.int 0)
    rfl rfl (by decide)
  exact ⟨rfl, rfl, by decide, h.1, h.2.1⟩

/-- C10: the component is deterministic and stateless — the returned tree is
a function of exactly the five props fields, so any two renders given equal
inputs produce identical output; there is no other state to read and nothing
retained across renders. -/
theorem render_deterministic (α : Type) (p q : DialogModalProps α)
    (h1 : p.isOpen = q.isOpen) (h2 : p.title = q.title)
    (h3 : p.description = q.description) (h4 : p.onClose = q.onClose)
    (h5 : p.children = q.children) :
    SharedModal p = SharedModal q := by
  have hpq : p = q := by
    obtain ⟨o, t, d, cb, ch⟩ := p
    obtain ⟨o2, t2, d2, cb2, ch2⟩ := q
    simp_all
  rw [hpq]

/-- C10, witness: two prop records built separately with equal field values
render identically. -/
theorem render_deterministic_witness :
    SharedModal pScenarioA = SharedModal pScenarioA2 :=
  render_deterministic Unit pScenarioA pScenarioA2 rfl rfl rfl rfl rfl

end Aimantis
